import Mathlib

/-!
Shallow embedding of `index.py`, a GitHub profile README generator.

The program fetches repository metadata over HTTP, optionally clones each
repository to count commits and line changes, and renders a README template.
HTTP responses and subprocess outputs are modelled as oracle functions passed
in explicitly; a raised Python exception is modelled as `Except.error`, and
code that catches exceptions pattern-matches the `Except` value.  Machine
integers do not overflow in Python, so counts are `Nat`/`Int`.
-/

/-- Python exception classes that matter here, collapsed to the distinctions
the program's `try`/`except` structure can observe. -/
inductive PyErr where
  | netErr
  | indexErr
  | procErr
  deriving DecidableEq, Repr

/-- ASCII whitespace recognized by Python's `str.strip` (model restricted to
ASCII). -/
def pyIsSpaceC (c : Char) : Bool :=
  c = ' ' || c = '\t' || c = '\n' || c = '\r' || c = '\x0b' || c = '\x0c'

/-- Value of a decimal digit string, most significant digit first. -/
def natOfDigitsAux (acc : Nat) : List Char → Nat
  | [] => acc
  | c :: cs => natOfDigitsAux (acc * 10 + (c.toNat - '0'.toNat)) cs

/-- Value of a decimal digit string. -/
def natOfDigits (s : String) : Nat := natOfDigitsAux 0 s.data

/-- Python `str.isdigit` (ASCII model): nonempty and all characters digits. -/
def pyIsDigit (s : String) : Bool := !s.isEmpty && s.data.all Char.isDigit

/-- Python `int(s)` on an already-stripped string (ASCII model: optional sign
then at least one digit); `none` models a raised `ValueError`. -/
def pyIntOfString (s : String) : Option Int :=
  match s.data with
  | [] => none
  | '-' :: ds => if !ds.isEmpty && ds.all Char.isDigit
      then some (-(natOfDigitsAux 0 ds : Int)) else none
  | '+' :: ds => if !ds.isEmpty && ds.all Char.isDigit
      then some (natOfDigitsAux 0 ds : Int) else none
  | ds => if ds.all Char.isDigit then some (natOfDigitsAux 0 ds : Int) else none

/-- Python `str.strip()` with no argument (ASCII whitespace model). -/
def pyStrip (s : String) : String :=
  String.mk (((s.data.dropWhile pyIsSpaceC).reverse.dropWhile pyIsSpaceC).reverse)

/-- Python `str.splitlines()` restricted to `\n` line boundaries: like
`splitOn "\n"` but without a trailing empty line. -/
def pySplitlines (s : String) : List String :=
  let p := s.splitOn "\n"
  if p.getLast? = some "" then p.dropLast else p

/-- Python `s.startswith(pre)`. -/
def pyStartsWith (pre s : String) : Bool := pre.data.isPrefixOf s.data

/-- Python `s.endswith(suf)`. -/
def pyEndsWith (suf s : String) : Bool := suf.data.reverse.isPrefixOf s.data.reverse

/-- Python `s[:-n]` for `0 < n ≤ len(s)`: drop the last `n` characters. -/
def pyDropRight (n : Nat) (s : String) : String :=
  String.mk (s.data.take (s.data.length - n))

/-- Python `s.split(sep)` for a single-character separator, on character
lists: every occurrence of `sep` separates fields, so `n` separators yield
`n + 1` fields and the empty string yields one empty field. -/
def pySplitC (sep : Char) : List Char → List (List Char)
  | [] => [[]]
  | c :: cs =>
    let r := pySplitC sep cs
    if c = sep then [] :: r
    else match r with
      | h :: t => (c :: h) :: t
      | [] => [[c]]

/-- Python `s.split(sep)` for a single-character separator. -/
def pySplit (sep : Char) (s : String) : List String :=
  (pySplitC sep s.data).map String.mk

/-- Split a character list at the first occurrence of `c`; `none` when `c`
does not occur.  Models Python `s.split(c, 1)` yielding two pieces. -/
def splitAtFirst (c : Char) : List Char → Option (List Char × List Char)
  | [] => none
  | d :: ds =>
    if d = c then some ([], ds)
    else (splitAtFirst c ds).map (fun p => (d :: p.1, p.2))

/-- Python `s.split(":", 1)` when it produces two pieces; `none` when the
string has no colon (so that indexing `[1]` would raise `IndexError`). -/
def splitFirstColon (s : String) : Option (String × String) :=
  (splitAtFirst ':' s.data).map (fun p => (String.mk p.1, String.mk p.2))

/-- Characters allowed in a URL scheme after the first letter
(`urllib.parse` model). -/
def schemeChar (c : Char) : Bool := c.isAlphanum || c = '+' || c = '-' || c = '.'

/-- Drop a leading `scheme:` when the prefix before the first colon is a valid
scheme (starts with a letter, all scheme characters); `urllib.parse` model. -/
def stripScheme (l : List Char) : List Char :=
  match splitAtFirst ':' l with
  | some (pre, rest) =>
    if (match pre with | c :: _ => c.isAlpha | [] => false) && pre.all schemeChar
    then rest else l
  | none => l

/-- After the scheme, drop a `//netloc` part, which extends to the first
`/`, `?` or `#` (the delimiter is kept); `urllib.parse` model. -/
def dropNetloc (l : List Char) : List Char :=
  match l with
  | '/' :: '/' :: rest => rest.dropWhile (fun c => !(c = '/' || c = '?' || c = '#'))
  | _ => l

/-- Keep the part of the string before the first occurrence of `c`
(Python `url.split(c, 1)[0]` when present, identity otherwise). -/
def dropSuffixFrom (c : Char) (l : List Char) : List Char := l.takeWhile (· ≠ c)

/-- Model of `urllib.parse.urlparse(url).path` for the URL shapes this program
meets: strip a valid scheme, a `//netloc` part, and fragment/query tails.
(Parameter `;` splitting and whitespace stripping are not modelled.) -/
def urlparsePath (s : String) : String :=
  String.mk (dropSuffixFrom '?' (dropSuffixFrom '#' (dropNetloc (stripScheme s.data))))

/-- Python `s.lstrip("/")`. -/
def lstripSlash (s : String) : String := String.mk (s.data.dropWhile (· = '/'))

/-- The `.git`-suffix stripping of `parse_owner_repo_from_clone_url`
(index.py lines 91-92). -/
def stripGitSuffix (clone_url : String) : String :=
  if pyEndsWith ".git" clone_url then pyDropRight 4 clone_url else clone_url

/-- The segment selection shared by both branches of
`parse_owner_repo_from_clone_url`: `return parts[0], parts[1]` when there are
at least two parts, else the final `return None, None`. -/
def firstTwoSegs (parts : List String) : Option String × Option String :=
  match parts with
  | a :: b :: _ => (some a, some b)
  | _ => (none, none)

/-- Embedding of `parse_owner_repo_from_clone_url` (index.py lines 89-104).
A `git@`-prefixed URL with no colon raises `IndexError` at
`clone_url.split(":", 1)[1]`, modelled as `.error .indexErr`. -/
def parse_owner_repo_from_clone_url (clone_url : String) :
    Except PyErr (Option String × Option String) :=
  let u := stripGitSuffix clone_url
  if pyStartsWith "git@" u then
    match splitFirstColon u with
    | none => .error .indexErr
    | some (_, path) => .ok (firstTwoSegs (pySplit '/' path))
  else
    .ok (firstTwoSegs (pySplit '/' (lstripSlash (urlparsePath u))))

instance {ε α : Type} [DecidableEq ε] [DecidableEq α] : DecidableEq (Except ε α) :=
  fun x y =>
  match x, y with
  | .ok a, .ok b =>
    if h : a = b then .isTrue (h ▸ rfl) else .isFalse (fun hc => h (Except.ok.inj hc))
  | .error a, .error b =>
    if h : a = b then .isTrue (h ▸ rfl) else .isFalse (fun hc => h (Except.error.inj hc))
  | .ok _, .error _ => .isFalse (fun hc => Except.noConfusion hc)
  | .error _, .ok _ => .isFalse (fun hc => Except.noConfusion hc)

/-- Module-level constant `GITHUB_USERNAME` (index.py line 11). -/
def GITHUB_USERNAME : String := "neerajrp1999"

/-- Module-level constant `API_BASE` (index.py line 13). -/
def API_BASE : String := "https://api.github.com"

/-- Module-level constant `GRAPHQL_URL` (index.py line 14). -/
def GRAPHQL_URL : String := "https://api.github.com/graphql"

/-- Module-level constant `README_PATH` (index.py line 16). -/
def README_PATH : String := "README.md"

/-- Module-level constant `REQUEST_TIMEOUT` (index.py line 17). -/
def REQUEST_TIMEOUT : Nat := 15

/-- Python truthiness of the `GITHUB_TOKEN` environment value: present and
nonempty.  `none` models an unset variable. -/
def hasToken (token : Option String) : Bool :=
  match token with
  | some t => t != ""
  | none => false

/-- Module-level `HEADERS` (index.py line 15): a bearer header when the token
is truthy, otherwise the empty dict. -/
def authHeaders (token : Option String) : List (String × String) :=
  match token with
  | some t => if t != "" then [("Authorization", "Bearer " ++ t)] else []
  | none => []

/-- A query-parameter value as passed to `requests` (int or string). -/
inductive PVal where
  | s (v : String)
  | n (v : Nat)
  deriving DecidableEq, Repr

/-- An outgoing HTTP GET request: URL, query params, headers, timeout. -/
structure Request where
  url : String
  params : List (String × PVal)
  headers : List (String × String)
  timeout : Nat
  deriving DecidableEq, Repr

/-- One record of the repository-listing response body, with the three fields
the program reads (`private`, `stargazers_count`, `clone_url`). -/
structure Repo where
  priv : Bool
  stargazers_count : Nat
  clone_url : Option String
  deriving DecidableEq, Repr

/-- A repository-listing response: status code and parsed JSON body.  A raised
network or JSON-decoding exception is the oracle's `.error` instead. -/
structure ListResp where
  status : Nat
  body : List Repo
  deriving DecidableEq, Repr

/-- A profile response: status code and the `followers` field of the body. -/
structure UserResp where
  status : Nat
  followers : Nat
  deriving DecidableEq, Repr

/-- A commit-listing response: status, `Link` header (empty string when the
header is absent, as `r.headers.get("Link", "")` yields), and the parsed
body, whose elements the program never inspects (only the length); `.error`
in `body` models `r.json()` raising. -/
structure CommitsResp where
  status : Nat
  link : String
  body : Except PyErr (List Unit)
  deriving DecidableEq

/-- An outgoing GraphQL POST request. -/
structure GqlReq where
  url : String
  query : String
  gqlVars : List (String × String)
  headers : List (String × String)
  timeout : Nat
  deriving DecidableEq

/-- Outcome of the git subprocess invocations for one repository URL:
whether creating the temporary directory or cloning raised (swallowed by the
outer `try`), and the stdout of the two git queries (`.error` models the
subprocess call raising, each caught by its own inner `try`).  Clone failures
with a zero-output working copy are modelled by empty stdout strings. -/
structure GitOut where
  cloneExc : Bool
  revList : Except PyErr String
  numstat : Except PyErr String

/-- The outside world: HTTP and subprocess oracles.  `.error` results model
raised Python exceptions at the call site. -/
structure Env where
  getUser : Request → Except PyErr UserResp
  listRepos : Request → Except PyErr ListResp
  graphql : GqlReq → Except PyErr Nat
  listCommits : Request → Except PyErr CommitsResp
  git : String → GitOut

/-- The repository-listing request issued for a given page (index.py lines
25-32): authenticated `/user/repos` when the token is truthy, public
`/users/{username}/repos` otherwise; page size fixed at 100. -/
def reposRequest (token : Option String) (page : Nat) : Request :=
  if hasToken token then
    { url := API_BASE ++ "/user/repos"
      params := [("per_page", .n 100), ("page", .n page), ("affiliation", .s "owner,collaborator")]
      headers := authHeaders token
      timeout := REQUEST_TIMEOUT }
  else
    { url := API_BASE ++ "/users/" ++ GITHUB_USERNAME ++ "/repos"
      params := [("per_page", .n 100), ("page", .n page), ("type", .s "owner")]
      headers := []
      timeout := REQUEST_TIMEOUT }

/-- Embedding of the `while True` pagination loop of `get_all_repos`
(index.py lines 19-45).  `fuel` bounds the loop and models the finiteness of
the hosted data set; exhausted fuel returns what was accumulated.  A raised
request/JSON exception propagates: the loop body has no `try`. -/
def getAllReposLoop (token : Option String) (listRepos : Request → Except PyErr ListResp)
    (page : Nat) (acc : List Repo) : Nat → Except PyErr (List Repo)
  | 0 => .ok acc
  | fuel + 1 =>
    match listRepos (reposRequest token page) with
    | .error e => .error e
    | .ok r =>
      if r.status ≠ 200 then .ok acc
      else if r.body.isEmpty then .ok acc
      else if r.body.length < 100 then .ok (acc ++ r.body)
      else getAllReposLoop token listRepos (page + 1) (acc ++ r.body) fuel

/-- Embedding of `get_all_repos` (index.py lines 19-45). -/
def get_all_repos (token : Option String) (listRepos : Request → Except PyErr ListResp)
    (fuel : Nat) : Except PyErr (List Repo) :=
  getAllReposLoop token listRepos 1 [] fuel

/-- The profile request (index.py lines 49-54): authenticated `/user` when
the token is truthy, public `/users/{username}` otherwise. -/
def userRequest (token : Option String) : Request :=
  if hasToken token then
    { url := API_BASE ++ "/user", params := [], headers := authHeaders token,
      timeout := REQUEST_TIMEOUT }
  else
    { url := API_BASE ++ "/users/" ++ GITHUB_USERNAME, params := [], headers := [],
      timeout := REQUEST_TIMEOUT }

/-- Embedding of `get_basic_stats` (index.py lines 48-63).  A raised request
exception propagates (no `try`); a non-success profile status degrades to the
empty dict, hence 0 followers.  The clone-URL comprehension keeps only truthy
(nonempty) values. -/
def get_basic_stats (token : Option String) (env : Env) (fuel : Nat) :
    Except PyErr (Nat × Nat × Nat × Nat × Nat × List String) :=
  match env.getUser (userRequest token) with
  | .error e => .error e
  | .ok u =>
    let user_followers := if u.status = 200 then u.followers else 0
    match get_all_repos token env.listRepos fuel with
    | .error e => .error e
    | .ok repos =>
      let public_repos := (repos.filter (fun r => !r.priv)).length
      let private_repos := (repos.filter (fun r => r.priv)).length
      let total_repos := public_repos + private_repos
      let stars := (repos.map Repo.stargazers_count).sum
      let repo_urls := repos.filterMap (fun r =>
        match r.clone_url with
        | some s => if s = "" then none else some s
        | none => none)
      .ok (total_repos, public_repos, private_repos, user_followers, stars, repo_urls)

/-- The GraphQL query text of `get_yearly_contributions` (index.py lines
71-79), braces escaped. -/
def contributionsQuery : String :=
  "\n    query($login:String!, $from:DateTime!, $to:DateTime!) \x7b\n      user(login: $login) \x7b\n        contributionsCollection(from: $from, to: $to) \x7b\n          contributionCalendar \x7b totalContributions \x7d\n        \x7d\n      \x7d\n    \x7d\n    "

/-- Embedding of `get_yearly_contributions` (index.py lines 66-86).  The two
date strings stand for `datetime.utcnow().date()` and the date 365 days
before it; `graphql` returns `.ok n` for a 2xx response whose body decodes to
a total of `n`, `.error` for a network error, `raise_for_status` raising, or
a malformed body — all caught and mapped to 0. -/
def get_yearly_contributions (username : String) (token : Option String)
    (todayStr lastYearStr : String) (graphql : GqlReq → Except PyErr Nat) : Nat :=
  if !hasToken token then 0
  else
    match graphql
      { url := GRAPHQL_URL, query := contributionsQuery,
        gqlVars := [("login", username), ("from", lastYearStr ++ "T00:00:00Z"),
                      ("to", todayStr ++ "T23:59:59Z")],
        headers := authHeaders token, timeout := REQUEST_TIMEOUT } with
    | .ok n => n
    | .error _ => 0

/-- Drop an exact literal from the front of a character list; `none` when it
is not a prefix. -/
def dropLit : List Char → List Char → Option (List Char)
  | [], l => some l
  | _ :: _, [] => none
  | p :: ps, c :: cs => if c = p then dropLit ps cs else none

/-- One anchored match of the pattern `&page=(\d+)>;\s*rel="last"` at the
head of the list (index.py line 116); yields the captured page number. -/
def matchPageLastAt (l : List Char) : Option Nat :=
  match dropLit "&page=".data l with
  | none => none
  | some r1 =>
    let ds := r1.takeWhile Char.isDigit
    if ds.isEmpty then none
    else
      match dropLit ">;".data (r1.dropWhile Char.isDigit) with
      | none => none
      | some r3 =>
        match dropLit "rel=\"last\"".data (r3.dropWhile pyIsSpaceC) with
        | none => none
        | some _ => some (natOfDigitsAux 0 ds)

/-- Model of `re.search` of the pattern `&page=(\d+)>;\s*rel="last"`: the leftmost
anchored match wins (the greedy `\d+` cannot backtrack usefully here, since a
shortened digit run is never followed by `>`). -/
def searchPageLastC : List Char → Option Nat
  | [] => none
  | l@(_ :: tl) =>
    match matchPageLastAt l with
    | some n => some n
    | none => searchPageLastC tl

/-- Model of `re.search(r'&page=(\d+)>;\s*rel="last"', link)` with the captured group
read as an integer. -/
def searchPageLast (s : String) : Option Nat := searchPageLastC s.data

/-- The commit-listing request of `get_commit_count_api` (index.py lines
110-112): one page of size 1 filtered by author. -/
def commitsRequest (token : Option String) (owner repo author : String) : Request :=
  { url := API_BASE ++ "/repos/" ++ owner ++ "/" ++ repo ++ "/commits"
    params := [("author", .s author), ("per_page", .n 1)]
    headers := authHeaders token
    timeout := REQUEST_TIMEOUT }

/-- Embedding of `get_commit_count_api` (index.py lines 107-123).  The inner
`Except (Option Nat)` is the `try` block: `.ok (some n)` a `return` inside
the block, `.ok none` falling off its end, `.error` a raised exception; both
of the latter reach the final `return 0`. -/
def get_commit_count_api (token : Option String) (owner repo author : String)
    (listCommits : Request → Except PyErr CommitsResp) : Nat :=
  let attempt : Except PyErr (Option Nat) :=
    match listCommits (commitsRequest token owner repo author) with
    | .error e => .error e
    | .ok r =>
      if r.status = 200 then
        if r.link ≠ "" then
          match searchPageLast r.link with
          | some n => .ok (some n)
          | none =>
            match r.body with
            | .error e => .error e
            | .ok body => .ok (some body.length)
        else
          match r.body with
          | .error e => .error e
          | .ok body => .ok (some body.length)
      else .ok none
  match attempt with
  | .ok (some n) => n
  | .ok none => 0
  | .error _ => 0

/-- One iteration of the numstat accumulation loop (index.py lines 146-150):
split the line on tabs and add the first two fields when both are purely
numeric. -/
def numstatAcc (acc : Nat × Nat) (line : String) : Nat × Nat :=
  match pySplit '\t' line with
  | p0 :: p1 :: _ =>
    if pyIsDigit p0 && pyIsDigit p1 then (acc.1 + natOfDigits p0, acc.2 + natOfDigits p1)
    else acc
  | _ => acc

/-- The numstat loop of `analyze_repo` over all output lines. -/
def sumNumstat (lines : List String) : Nat × Nat := lines.foldl numstatAcc (0, 0)

/-- Embedding of `analyze_repo` (index.py lines 126-159).  The clone flags
only shape the `git clone` command line, whose consequences the `git` oracle
already encodes, so they are carried but not consulted.  The owner/repo parse
on line 128 sits outside every `try`, so its `IndexError` propagates. -/
def analyze_repo (repo_url username : String) (full_clone : Bool) (shallow_depth : Nat)
    (git : String → GitOut) (listCommits : Request → Except PyErr CommitsResp)
    (token : Option String) : Except PyErr (Int × Nat × Nat) :=
  match parse_owner_repo_from_clone_url repo_url with
  | .error e => .error e
  | .ok (owner, repo) =>
  let g := git repo_url
  let (commits, added, removed) : Int × Nat × Nat :=
    if g.cloneExc then ((0 : Int), 0, 0)
    else
      let commits : Int :=
        match g.revList with
        | .error _ => 0
        | .ok out =>
          let t := pyStrip out
          if t = "" then 0
          else
            match pyIntOfString t with
            | some n => n
            | none => 0
      let (added, removed) :=
        match g.numstat with
        | .error _ => (0, 0)
        | .ok out => sumNumstat (pySplitlines out)
      (commits, added, removed)
  let commits : Int :=
    if commits = 0 then
      match owner, repo with
      | some o, some r =>
        if o ≠ "" ∧ r ≠ "" then
          (get_commit_count_api token o r username listCommits : Int)
        else 0
      | _, _ => 0
    else commits
  .ok (commits, added, removed)

/-- Decimal digits of a natural number, via explicit fuel. -/
def natDigitsAux : Nat → Nat → List Char
  | 0, _ => []
  | fuel + 1, n =>
    if n < 10 then [Char.ofNat (48 + n)]
    else natDigitsAux fuel (n / 10) ++ [Char.ofNat (48 + n % 10)]

/-- Decimal digits of a natural number, most significant first. -/
def natDigits (n : Nat) : List Char := natDigitsAux (n + 1) n

/-- Insert a comma after every third character; applied to a reversed digit
list it produces Python's thousands grouping. -/
def chunk3 : List Char → List Char
  | a :: b :: c :: d :: rest => a :: b :: c :: ',' :: chunk3 (d :: rest)
  | l => l

/-- Python `format(n, ",")`: decimal rendering with thousands separators,
minus sign in front for negatives. -/
def commaFormat (n : Int) : String :=
  if n < 0 then "-" ++ String.mk ((chunk3 (natDigits n.natAbs).reverse).reverse)
  else String.mk ((chunk3 (natDigits n.toNat).reverse).reverse)

/-- Python `str` of an `int`. -/
def pyStrInt (n : Int) : String :=
  if n < 0 then "-" ++ String.mk (natDigits n.natAbs)
  else String.mk (natDigits n.toNat)

/-- Python `str` of a nonnegative `int`. -/
def pyStrNat (n : Nat) : String := String.mk (natDigits n)

/-- A run of `n` em-dash characters: the template's divider lines are such
runs (48, 42, 46 and 42 characters long in the source). -/
def emDashes (n : Nat) : String := String.mk (List.replicate n '—')

/-- The f-string of `build_readme` up to and including the literal text just
before the `{loc:,}` field (index.py lines 164-207). -/
def readmeUpToLoc (username : String)
    (total_repos public_repos private_repos stars followers contributions : Nat)
    (total_commits : Int) : String :=
  "<table>\n<tr>\n<td valign=\"top\">\n<pre>\n" ++ username ++
  " " ++ emDashes 48 ++ "
. OS: ........................ Windows 10, Linux, Android 14
. Uptime: .................... 2+ years (Professional Experience)
. Host: ...................... 64 Squares LLC, Pune.
. Kernel: .................... Full-Stack Software Engineer | Backend-Focused | Cloud-Native Systems
. IDE: ....................... IntelliJ IDEA 2025.2.1, VSCode 1.95.1

. Core Expertise: ............ Full-Stack Web Development, API Design, Scalable Architecture,\x20
. Core Expertise: ............ System Design, Cloud Deployments, Performance Optimization,
. Core Expertise: ............ Agile Delivery, and End-to-End Product Development

. Languages.Programming: ..... Java, Python, JavaScript/TypeScript, C, C++
. Frontend: .................. React JS/TS, Redux, Tailwind CSS, HTML, CSS
. Backend: ................... Node.js, Express, Spring Boot, Sequelize, JPA, Hibernate, Redis, REST APIs
. Databases: ................. MySQL, PostgreSQL, NoSQL
. Cloud/DevOps: .............. AWS, Git, Linux, CI/CD Pipelines
. Other Skills: .............. Data Structures & Algorithms, Problem Solving, Debugging, System Design
. Learning: .................. Go, Rust

. Languages.Real: ............ English, Hindi, Marathi

. Hobbies.Software: .......... Software Development, Building Tools, Automation, Open Source Projects
. Hobbies.Hardware: .......... Overclocking, Undervolting

 — Open Source " ++ emDashes 42 ++ "
. <a href=\"https://www.npmjs.com/package/react-canvas-img\" target=\"_blank\" rel=\"noopener noreferrer\">react-canvas-img</a>

— Contact " ++ emDashes 46 ++ "
. Email.Personal: ............ <a href=\"mailto:neerajrp1999@gmail.com\">neerajrp1999@gmail.com</a>
. Email.Work: ................ <a href=\"mailto:neerajrp1999@zohomail.in\">neerajrp1999@zohomail.in</a>
. LinkedIn: .................. <a href=\"https://www.linkedin.com/in/neerajprajapati309\" target=\"_blank\" rel=\"noopener noreferrer\">neerajprajapati309</a>
. Leetcode: .................. <a href=\"https://leetcode.com/neerajrp1999\" target=\"_blank\" rel=\"noopener noreferrer\">neerajrp1999</a>

 — GitHub Stats " ++ emDashes 42 ++ "
. Total Repos: ............... " ++ pyStrNat total_repos ++
  " (Public: " ++ pyStrNat public_repos ++ ", Private: " ++ pyStrNat private_repos ++
  ")\n. Stars: ..................... " ++ pyStrNat stars ++
  "\n. Followers: ................. " ++ pyStrNat followers ++
  "\n. Contributions (Last Year) .. " ++ pyStrNat contributions ++
  "\n. Commits: ................... " ++ pyStrInt total_commits ++
  "\n. Lines of Code: ............. "

/-- The f-string of `build_readme` after the `{loc:,}` field (index.py lines
207-213). -/
def readmeAfterLoc (total_added total_removed : Nat) : String :=
  " (" ++ commaFormat (total_added : Int) ++ "++, " ++
  commaFormat (total_removed : Int) ++ "-- )\n\n</pre>\n</td>\n</tr>\n</table>\n"

/-- Embedding of `build_readme` (index.py lines 162-214).  The f-string is
rendered as the concatenation of its literal pieces and formatted fields;
`loc` is computed in unbounded integer arithmetic, so it may be negative. -/
def build_readme (username : String)
    (total_repos public_repos private_repos stars followers contributions : Nat)
    (total_commits : Int) (total_added total_removed : Nat) : String :=
  let loc : Int := (total_added : Int) - (total_removed : Int)
  readmeUpToLoc username total_repos public_repos private_repos stars followers
    contributions total_commits
  ++ commaFormat loc
  ++ readmeAfterLoc total_added total_removed

/-- The parsed command-line arguments (index.py lines 218-223).
`max_repos` is `int`-typed with default `None`; `argparse` accepts negative
values, hence `Int`. -/
structure Args where
  no_loc : Bool
  full_clone : Bool
  max_repos : Option Int
  workers : Nat
  deriving DecidableEq, Repr

/-- Python slice `l[:n]` for an arbitrary integer bound: a nonnegative bound
keeps the first `n` items, a negative bound drops the last `|n|`. -/
def pySliceUpTo (n : Int) (l : List α) : List α :=
  if 0 ≤ n then l.take n.toNat
  else l.take (l.length - n.natAbs)

/-- The repository list actually submitted for analysis (index.py line 232):
`repo_urls[:args.max_repos] if args.max_repos else repo_urls`.  Both `None`
and `0` are falsy, so both leave the list uncapped. -/
def to_process (max_repos : Option Int) (repo_urls : List String) : List String :=
  match max_repos with
  | none => repo_urls
  | some n => if n ≠ 0 then pySliceUpTo n repo_urls else repo_urls

/-- What a completed run leaves behind: the README text written to
`README_PATH`, the aggregated totals (also printed), and the list of
repository URLs that were submitted to `analyze_repo`. -/
structure MainResult where
  readme : String
  total_commits : Int
  total_added : Nat
  total_removed : Nat
  analyzed : List String

/-- The worker-pool aggregation loop of `main` (index.py lines 234-240): one
`analyze_repo` invocation per submitted URL, totals accumulated by `+=`.  The
pool yields results in completion order, but the three totals are sums, so
this submission-order recursion computes the same values; a raised exception
in any worker reaches `fut.result()` and propagates either way. -/
def analyzeFold (args : Args) (token : Option String) (env : Env)
    (acc : Int × Nat × Nat) : List String → Except PyErr (Int × Nat × Nat)
  | [] => .ok acc
  | url :: rest =>
    match analyze_repo url GITHUB_USERNAME args.full_clone 50 env.git env.listCommits token with
    | .error e => .error e
    | .ok (c, a, r) => analyzeFold args token env (acc.1 + c, acc.2.1 + a, acc.2.2 + r) rest

/-- Embedding of `main` (index.py lines 217-254).  `.ok` models the process
completing and writing `README_PATH` (exit code 0); `.error` models an
uncaught exception aborting the run before the README is written. -/
def mainRun (args : Args) (token : Option String) (todayStr lastYearStr : String)
    (env : Env) (fuel : Nat) : Except PyErr MainResult :=
  match get_basic_stats token env fuel with
  | .error e => .error e
  | .ok (total_repos, public_repos, private_repos, followers, stars, repo_urls) =>
    let contributions :=
      get_yearly_contributions GITHUB_USERNAME token todayStr lastYearStr env.graphql
    let analyzed :=
      if !args.no_loc && !repo_urls.isEmpty then to_process args.max_repos repo_urls else []
    match analyzeFold args token env ((0 : Int), (0 : Nat), (0 : Nat)) analyzed with
    | .error e => .error e
    | .ok totals =>
      let readme := build_readme GITHUB_USERNAME total_repos public_repos private_repos
        stars followers contributions totals.1 totals.2.1 totals.2.2
      .ok { readme := readme, total_commits := totals.1, total_added := totals.2.1,
            total_removed := totals.2.2, analyzed := analyzed }

/-- A clone URL is SSH-benign when, if it is `git@`-prefixed after stripping
`.git`, it contains a colon — exactly the condition under which
`parse_owner_repo_from_clone_url` cannot raise. -/
def sshSafe (u : String) : Prop :=
  pyStartsWith "git@" (stripGitSuffix u) = true →
  (splitFirstColon (stripGitSuffix u)).isSome = true

instance (u : String) : Decidable (sshSafe u) := by
  unfold sshSafe; infer_instance

/-- The clone-URL parser as the claim describes it, written from the spec's
words: strip a trailing `.git`; an SSH-form URL is split on the first colon
and the first two path segments of the remainder are taken; any other URL is
parsed as a standard URL and the first two path segments of its path are
taken; fewer than two segments yield `(none, none)`.  (The spec presumes the
colon exists; `getD` supplies a vacuous default for comparison.) -/
def parse_owner_repo_spec (clone_url : String) : Option String × Option String :=
  let u := stripGitSuffix clone_url
  if pyStartsWith "git@" u then
    firstTwoSegs (pySplit '/' ((splitFirstColon u).getD ("", "")).2)
  else
    firstTwoSegs (pySplit '/' (lstripSlash (urlparsePath u)))

/-- Per-line numstat contribution as the claim describes it: split on tabs;
when the first two fields are both purely numeric the line contributes those
values, otherwise nothing. -/
def lineContrib (line : String) : Nat × Nat :=
  match pySplit '\t' line with
  | p0 :: p1 :: _ =>
    if pyIsDigit p0 && pyIsDigit p1 then (natOfDigits p0, natOfDigits p1) else (0, 0)
  | _ => (0, 0)

/-- Default command-line arguments (no flags). -/
def defaultArgs : Args :=
  { no_loc := false, full_clone := false, max_repos := none, workers := 4 }

/-- A sample repository record as the listing endpoint would return it. -/
def okRepo : Repo :=
  { priv := false, stargazers_count := 3, clone_url := some "https://github.com/o/r.git" }

/-- A healthy world: every endpoint answers with a success response and the
git subprocesses produce output. -/
def okEnv : Env :=
  { getUser := fun _ => .ok { status := 200, followers := 1 }
    listRepos := fun _ => .ok { status := 200, body := [okRepo] }
    graphql := fun _ => .error .netErr
    listCommits := fun _ => .ok { status := 200, link := "", body := .ok [] }
    git := fun _ =>
      { cloneExc := false, revList := .ok "2\n",
        numstat := .ok "5\t2\ta.py\n-\t-\tb.png\n" } }

/-- A world in which every HTTP request raises a network error and every
subprocess fails. -/
def errEnv : Env :=
  { getUser := fun _ => .error .netErr
    listRepos := fun _ => .error .netErr
    graphql := fun _ => .error .netErr
    listCommits := fun _ => .error .netErr
    git := fun _ =>
      { cloneExc := true, revList := .error .procErr, numstat := .error .procErr } }


/-- A commit-listing response carrying the claim's example Link header. -/
def c4Resp : CommitsResp :=
  { status := 200,
    link := "<https://api.github.com/repositories/1/commits?author=a&page=7>; rel=\"last\"",
    body := .ok [] }

/-- A commit-listing oracle always answering with `c4Resp`. -/
def c4Oracle : Request → Except PyErr CommitsResp := fun _ => .ok c4Resp

/-- A commit-listing oracle answering with one commit and no Link header. -/
def c10Oracle : Request → Except PyErr CommitsResp :=
  fun _ => .ok { status := 200, link := "", body := .ok [()] }

/-- Arguments of a `--no-loc` run. -/
def c9Args : Args :=
  { no_loc := true, full_clone := false, max_repos := none, workers := 4 }

/-- Arguments with `--max-repos 1`. -/
def c2wArgs : Args :=
  { no_loc := false, full_clone := false, max_repos := some 1, workers := 4 }

/-- Arguments with `--max-repos 0`. -/
def c2zArgs : Args :=
  { no_loc := false, full_clone := false, max_repos := some 0, workers := 4 }

/-- The accumulator step `numstatAcc` adds exactly the claim's per-line contribution. -/
lemma numstatAcc_eq (acc : Nat × Nat) (l : String) :
    numstatAcc acc l = (acc.1 + (lineContrib l).1, acc.2 + (lineContrib l).2) := by
  unfold numstatAcc lineContrib
  rcases pySplit '\t' l with _ | ⟨p0, _ | ⟨p1, rest⟩⟩
  · simp
  · simp
  · by_cases h : (pyIsDigit p0 && pyIsDigit p1) = true <;> simp [h]

/-- The numstat fold, started anywhere, adds the per-line contributions. -/
lemma sumNumstat_eq_aux (lines : List String) :
    ∀ acc : Nat × Nat, lines.foldl numstatAcc acc =
      (acc.1 + (lines.map fun l => (lineContrib l).1).sum,
       acc.2 + (lines.map fun l => (lineContrib l).2).sum) := by
  induction lines with
  | nil => intro acc; simp
  | cons l ls ih =>
    intro acc
    simp only [List.foldl_cons, List.map_cons, List.sum_cons]
    rw [numstatAcc_eq, ih]
    simp [Nat.add_assoc]

/-- C6: numstat parsing sums, over all output lines, exactly the values of
lines whose first two tab-separated fields are both purely numeric; the line
`"5\t2\tfile.py"` contributes added=5, removed=2 and `"-\t-\tbinary.png"`
contributes nothing. -/
theorem c6_numstat_parsing :
    (∀ lines : List String,
      sumNumstat lines =
        ((lines.map fun l => (lineContrib l).1).sum,
         (lines.map fun l => (lineContrib l).2).sum)) ∧
    lineContrib "5\t2\tfile.py" = (5, 2) ∧
    lineContrib "-\t-\tbinary.png" = (0, 0) := by
  refine ⟨?_, rfl, rfl⟩
  intro lines
  unfold sumNumstat
  rw [sumNumstat_eq_aux]
  simp

/-- C7: the rendered net line count is the exact integer `added - removed`,
exhibited as the very field the renderer emits between its two literal
pieces, with no clamping — at added=3, removed=10 the field reads `-7`. -/
theorem c7_net_lines_unclamped :
    (∀ (username : String) (tr pu pr st fo co : Nat) (tc : Int) (a r : Nat),
      ∃ pre post : String,
        build_readme username tr pu pr st fo co tc a r =
          pre ++ commaFormat ((a : Int) - (r : Int)) ++ post) ∧
    commaFormat ((3 : Int) - (10 : Int)) = "-7" := by
  refine ⟨?_, rfl⟩
  intro username tr pu pr st fo co tc a r
  exact ⟨readmeUpToLoc username tr pu pr st fo co tc, readmeAfterLoc a r, rfl⟩

/-- C3 (amended part): on every input that does not hit the `IndexError`
(`git@`-prefixed with no colon), the parser returns exactly the pair the
spec's description computes; the three example URLs of the claim behave as
stated. -/
theorem c3_clone_url_parsing :
    (∀ u : String, sshSafe u →
        parse_owner_repo_from_clone_url u = .ok (parse_owner_repo_spec u)) ∧
    parse_owner_repo_from_clone_url "git@github.com:owner/repo.git"
      = .ok (some "owner", some "repo") ∧
    parse_owner_repo_from_clone_url "https://github.com/owner/repo.git"
      = .ok (some "owner", some "repo") ∧
    parse_owner_repo_from_clone_url "https://github.com" = .ok (none, none) := by
  refine ⟨?_, rfl, rfl, rfl⟩
  intro u h
  unfold parse_owner_repo_from_clone_url parse_owner_repo_spec
  cases hsw : pyStartsWith "git@" (stripGitSuffix u)
  · simp [hsw]
  · have hs := h hsw
    rcases ho : splitFirstColon (stripGitSuffix u) with _ | ⟨a, b⟩
    · rw [ho] at hs; simp at hs
    · simp [hsw, ho]

/-- C3 (counterexample): the claim promises a pair for every input string,
but a `git@`-prefixed URL with no colon raises `IndexError`, while the
claim's description yields `(none, none)` there. -/
theorem c3_counterexample :
    parse_owner_repo_from_clone_url "git@host" = .error .indexErr ∧
    parse_owner_repo_spec "git@host" = (none, none) := ⟨rfl, rfl⟩

/-- C3 witness: the amended theorem applied to a concrete safe URL. -/
theorem c3_witness :
    parse_owner_repo_from_clone_url "https://github.com/owner/repo.git"
      = .ok (parse_owner_repo_spec "https://github.com/owner/repo.git") :=
  c3_clone_url_parsing.1 "https://github.com/owner/repo.git" (by decide)

/-- On a raised request exception, `get_commit_count_api` returns 0. -/
lemma gcc_of_error {token : Option String} {owner repo author : String}
    {lc : Request → Except PyErr CommitsResp} {e : PyErr}
    (h : lc (commitsRequest token owner repo author) = .error e) :
    get_commit_count_api token owner repo author lc = 0 := by
  unfold get_commit_count_api
  rw [h]

/-- On a 200 response whose Link header matches the pattern,
`get_commit_count_api` returns the captured page number. -/
lemma gcc_of_match {token : Option String} {owner repo author : String}
    {lc : Request → Except PyErr CommitsResp} {r : CommitsResp} {n : Nat}
    (h : lc (commitsRequest token owner repo author) = .ok r)
    (h200 : r.status = 200) (hs : searchPageLast r.link = some n) :
    get_commit_count_api token owner repo author lc = n := by
  have hlink : r.link ≠ "" := by
    intro he
    rw [he] at hs
    have hs' : (none : Option Nat) = some n := hs
    exact Option.noConfusion hs'
  unfold get_commit_count_api
  rw [h]
  simp [h200, hlink, hs]

/-- On a 200 response with no pattern match and a well-formed body,
`get_commit_count_api` returns the body's length. -/
lemma gcc_of_nomatch {token : Option String} {owner repo author : String}
    {lc : Request → Except PyErr CommitsResp} {r : CommitsResp} {bs : List Unit}
    (h : lc (commitsRequest token owner repo author) = .ok r)
    (h200 : r.status = 200) (hs : searchPageLast r.link = none)
    (hb : r.body = .ok bs) :
    get_commit_count_api token owner repo author lc = bs.length := by
  unfold get_commit_count_api
  rw [h]
  by_cases hl : r.link = "" <;> simp [hl, h200, hs, hb]

/-- On a non-success status, `get_commit_count_api` returns 0. -/
lemma gcc_of_status {token : Option String} {owner repo author : String}
    {lc : Request → Except PyErr CommitsResp} {r : CommitsResp}
    (h : lc (commitsRequest token owner repo author) = .ok r)
    (hne : r.status ≠ 200) :
    get_commit_count_api token owner repo author lc = 0 := by
  unfold get_commit_count_api
  rw [h]
  simp [hne]

/-- On a 200 response with no pattern match whose body fails to decode,
`get_commit_count_api` returns 0. -/
lemma gcc_of_bodyerr {token : Option String} {owner repo author : String}
    {lc : Request → Except PyErr CommitsResp} {r : CommitsResp} {e : PyErr}
    (h : lc (commitsRequest token owner repo author) = .ok r)
    (h200 : r.status = 200) (hs : searchPageLast r.link = none)
    (hb : r.body = .error e) :
    get_commit_count_api token owner repo author lc = 0 := by
  unfold get_commit_count_api
  rw [h]
  by_cases hl : r.link = "" <;> simp [hl, h200, hs, hb]

/-- C4: the API commit-count fallback returns the page number captured by
`&page=(\d+)` immediately before `rel="last"` on a matching 200 response,
the single page's commit count when no match exists, and 0 on a raised
exception, a non-success status, or a malformed body. -/
theorem c4_pagination_header_parsing (token : Option String) (owner repo author : String)
    (lc : Request → Except PyErr CommitsResp) (r : CommitsResp) (bs : List Unit)
    (e e' : PyErr) (n : Nat) :
    (lc (commitsRequest token owner repo author) = .ok r → r.status = 200 →
      searchPageLast r.link = some n →
      get_commit_count_api token owner repo author lc = n) ∧
    (lc (commitsRequest token owner repo author) = .ok r → r.status = 200 →
      searchPageLast r.link = none → r.body = .ok bs →
      get_commit_count_api token owner repo author lc = bs.length) ∧
    (lc (commitsRequest token owner repo author) = .ok r → r.status ≠ 200 →
      get_commit_count_api token owner repo author lc = 0) ∧
    (lc (commitsRequest token owner repo author) = .error e →
      get_commit_count_api token owner repo author lc = 0) ∧
    (lc (commitsRequest token owner repo author) = .ok r → r.status = 200 →
      searchPageLast r.link = none → r.body = .error e' →
      get_commit_count_api token owner repo author lc = 0) :=
  ⟨fun h h200 hs => gcc_of_match h h200 hs,
   fun h h200 hs hb => gcc_of_nomatch h h200 hs hb,
   fun h hne => gcc_of_status h hne,
   fun h => gcc_of_error h,
   fun h h200 hs hb => gcc_of_bodyerr h h200 hs hb⟩



/-- C4 witness: the example header of the claim yields commit count 7. -/
theorem c4_witness : get_commit_count_api none "o" "r" "a" c4Oracle = 7 :=
  (c4_pagination_header_parsing none "o" "r" "a" c4Oracle c4Resp [] .netErr .netErr 7).1
    rfl rfl rfl

/-- C10: the fallback request asks for page size 1, and when no Link-header
match exists and the endpoint honours the requested page size, the fallback
value is the single page's length, at most 1. -/
theorem c10_fallback_page_size_one (token : Option String) (owner repo author : String)
    (lc : Request → Except PyErr CommitsResp) (r : CommitsResp) (bs : List Unit) :
    ("per_page", PVal.n 1) ∈ (commitsRequest token owner repo author).params ∧
    (lc (commitsRequest token owner repo author) = .ok r → r.status = 200 →
      searchPageLast r.link = none → r.body = .ok bs → bs.length ≤ 1 →
      get_commit_count_api token owner repo author lc = bs.length ∧
      get_commit_count_api token owner repo author lc ≤ 1) := by
  constructor
  · simp [commitsRequest]
  · intro h h200 hs hb hlen
    have heq := gcc_of_nomatch h h200 hs hb
    exact ⟨heq, heq ▸ hlen⟩


/-- C10 witness: with a one-element page and no header the fallback is 1. -/
theorem c10_witness :
    get_commit_count_api none "o" "r" "a" c10Oracle = 1 ∧
    get_commit_count_api none "o" "r" "a" c10Oracle ≤ 1 :=
  (c10_fallback_page_size_one none "o" "r" "a" c10Oracle
      { status := 200, link := "", body := .ok [()] } [()]).2
    rfl rfl rfl rfl (by decide)

/-- The pagination loop, started at any page with any accumulator: given `k`
full success pages followed by a stopping page (non-success, or fewer than
100 records), it returns the accumulator followed by the bodies of the full
pages and, if the stopping page was a success, its body. -/
lemma getAllReposLoop_spec (token : Option String)
    (env_list : Request → Except PyErr ListResp) (pages : Nat → ListResp) :
    ∀ (k start fuel : Nat) (acc : List Repo),
      k + 1 ≤ fuel →
      (∀ p, start ≤ p → p < start + k →
        env_list (reposRequest token p) = .ok (pages p) ∧
        (pages p).status = 200 ∧ (pages p).body.length = 100) →
      env_list (reposRequest token (start + k)) = .ok (pages (start + k)) →
      ((pages (start + k)).status ≠ 200 ∨ (pages (start + k)).body.length < 100) →
      getAllReposLoop token env_list start acc fuel =
        .ok (acc ++ ((List.range' start k).map (fun p => (pages p).body)).flatten ++
             (if (pages (start + k)).status = 200 then (pages (start + k)).body else [])) := by
  intro k
  induction k with
  | zero =>
    intro start fuel acc hfuel hfull hok hstop
    obtain ⟨f, rfl⟩ : ∃ f, fuel = f + 1 := ⟨fuel - 1, by omega⟩
    rw [Nat.add_zero] at hok hstop
    unfold getAllReposLoop
    rw [hok]
    rcases hstop with hs | hl
    · simp [hs]
    · by_cases hs : (pages start).status = 200
      · by_cases he : (pages start).body.isEmpty
        · have hnil : (pages start).body = [] := by
            simpa using he
          simp [hs, he, hnil]
        · simp [hs, he, hl]
      · simp [hs]
  | succ k ih =>
    intro start fuel acc hfuel hfull hok hstop
    obtain ⟨f, rfl⟩ : ∃ f, fuel = f + 1 := ⟨fuel - 1, by omega⟩
    obtain ⟨hreq, hst, hlen⟩ := hfull start (Nat.le_refl _) (by omega)
    have hidx : start + 1 + k = start + (k + 1) := by omega
    unfold getAllReposLoop
    rw [hreq]
    dsimp only
    have hne : ¬((pages start).status ≠ 200) := by simp [hst]
    rw [if_neg hne]
    have hnem : ¬((pages start).body.isEmpty = true) := by
      intro h'
      have : (pages start).body = [] := by simpa using h'
      rw [this] at hlen
      simp at hlen
    rw [if_neg hnem]
    have hnshort : ¬((pages start).body.length < 100) := by omega
    rw [if_neg hnshort]
    have hrec := ih (start + 1) f (acc ++ (pages start).body) (by omega)
      (fun p hp1 hp2 => hfull p (by omega) (by omega))
      (by rw [hidx]; exact hok)
      (by rw [hidx]; exact hstop)
    rw [hrec, hidx]
    congr 1
    rw [List.range'_succ, List.map_cons, List.flatten_cons]
    simp [List.append_assoc]

/-- C5: repository listing starts at page 1 with fixed page size 100, walks
success pages of exactly 100 records, stops at the first non-success status
(keeping what was accumulated) or the first empty/short page (keeping its
records), and the total record count is the sum of the per-page sizes. -/
theorem c5_repo_listing_pagination (token : Option String)
    (env_list : Request → Except PyErr ListResp) (pages : Nat → ListResp)
    (n fuel : Nat) (hn : 1 ≤ n) (hfuel : n ≤ fuel)
    (hok : ∀ p, 1 ≤ p → p ≤ n → env_list (reposRequest token p) = .ok (pages p))
    (hfull : ∀ p, 1 ≤ p → p < n →
      (pages p).status = 200 ∧ (pages p).body.length = 100)
    (hstop : (pages n).status ≠ 200 ∨ (pages n).body.length < 100) :
    get_all_repos token env_list fuel =
      .ok (((List.range' 1 (n - 1)).map (fun p => (pages p).body)).flatten ++
           (if (pages n).status = 200 then (pages n).body else [])) ∧
    (((List.range' 1 (n - 1)).map (fun p => (pages p).body)).flatten ++
        (if (pages n).status = 200 then (pages n).body else [])).length =
      (((List.range' 1 (n - 1)).map (fun p => (pages p).body.length)).sum +
        (if (pages n).status = 200 then (pages n).body.length else 0)) := by
  constructor
  · obtain ⟨m, rfl⟩ : ∃ m, n = m + 1 := ⟨n - 1, by omega⟩
    have hidx : 1 + m = m + 1 := by omega
    have h := getAllReposLoop_spec token env_list pages m 1 fuel [] (by omega)
      (fun p hp1 hp2 => ⟨hok p hp1 (by omega), hfull p hp1 (by omega)⟩)
      (by rw [hidx]; exact hok (m + 1) (by omega) (Nat.le_refl _))
      (by rw [hidx]; exact hstop)
    rw [hidx] at h
    unfold get_all_repos
    rw [h]
    simp
  · rw [List.length_append, List.length_flatten, List.map_map]
    by_cases hs : (pages n).status = 200 <;> simp [hs, Function.comp_def]

/-- C5 witness: one short success page stops pagination immediately with that
page's records. -/
theorem c5_witness : get_all_repos none okEnv.listRepos 5 = .ok [okRepo] := by
  have h := c5_repo_listing_pagination none okEnv.listRepos
      (fun _ => { status := 200, body := [okRepo] }) 1 5 (by decide) (by decide)
      (fun p _ _ => rfl) (fun p h1 h2 => absurd h2 (by omega)) (Or.inr (by decide))
  exact h.1.trans (by rfl)

/-- The pagination loop consults only the public repository-listing endpoint
when no token is present: two listing oracles that agree there produce the
same result. -/
lemma getAllReposLoop_congr (lr1 lr2 : Request → Except PyErr ListResp)
    (hag : ∀ req, req.url = API_BASE ++ "/users/" ++ GITHUB_USERNAME ++ "/repos" →
      lr1 req = lr2 req) :
    ∀ (fuel page : Nat) (acc : List Repo),
      getAllReposLoop none lr1 page acc fuel = getAllReposLoop none lr2 page acc fuel := by
  intro fuel
  induction fuel with
  | zero => intro page acc; rfl
  | succ f ih =>
    intro page acc
    unfold getAllReposLoop
    rw [hag (reposRequest none page) rfl]
    cases lr2 (reposRequest none page) with
    | error e => rfl
    | ok r =>
      dsimp only
      split_ifs <;> first | rfl | exact ih (page + 1) (acc ++ r.body)

/-- C8: with no credential the contribution count is 0 for every GraphQL
oracle (the query result is never consulted), the basic-stats stage depends
only on the two public unauthenticated endpoints, and the requests it issues
go to `/users/{account}` and `/users/{account}/repos` with no auth header. -/
theorem c8_no_credential_unauthenticated (d1 d2 : String)
    (g : GqlReq → Except PyErr Nat) (env1 env2 : Env) (fuel : Nat)
    (hrep : ∀ req, req.url = API_BASE ++ "/users/" ++ GITHUB_USERNAME ++ "/repos" →
      env1.listRepos req = env2.listRepos req)
    (husr : ∀ req, req.url = API_BASE ++ "/users/" ++ GITHUB_USERNAME →
      env1.getUser req = env2.getUser req) :
    get_yearly_contributions GITHUB_USERNAME none d1 d2 g = 0 ∧
    get_basic_stats none env1 fuel = get_basic_stats none env2 fuel ∧
    (userRequest none).url = API_BASE ++ "/users/" ++ GITHUB_USERNAME ∧
    (userRequest none).headers = [] ∧
    (∀ page, (reposRequest none page).url =
        API_BASE ++ "/users/" ++ GITHUB_USERNAME ++ "/repos" ∧
      (reposRequest none page).headers = []) := by
  refine ⟨rfl, ?_, rfl, rfl, fun page => ⟨rfl, rfl⟩⟩
  unfold get_basic_stats
  rw [husr (userRequest none) rfl]
  cases env2.getUser (userRequest none) with
  | error e => rfl
  | ok u =>
    dsimp only
    unfold get_all_repos
    rw [getAllReposLoop_congr env1.listRepos env2.listRepos hrep fuel 1 []]

/-- C8 witness: the theorem applied to the healthy environment and a GraphQL
oracle that would report 999 contributions — still 0 without a token. -/
theorem c8_witness :
    get_yearly_contributions GITHUB_USERNAME none "2026-10-12" "2025-10-12"
      (fun _ => .ok 999) = 0 ∧
    (userRequest none).url = API_BASE ++ "/users/" ++ GITHUB_USERNAME ∧
    (userRequest none).headers = ([] : List (String × String)) ∧
    (reposRequest none 1).url = API_BASE ++ "/users/" ++ GITHUB_USERNAME ++ "/repos" ∧
    (reposRequest none 1).headers = ([] : List (String × String)) :=
  have h := c8_no_credential_unauthenticated "2026-10-12" "2025-10-12"
    (fun _ => .ok 999) okEnv okEnv 3 (fun _ _ => rfl) (fun _ _ => rfl)
  ⟨h.1, h.2.2.1, h.2.2.2.1, (h.2.2.2.2 1).1, (h.2.2.2.2 1).2⟩


/-- C9: with `--no-loc` set, every completed run reports commit, added and
removed totals of exactly 0 with an empty analysis list, and the run's
outcome does not depend on the git or commit-listing oracles at all (no
clone or analysis is attempted). -/
theorem c9_no_loc_zero_totals (args : Args) (token : Option String) (d1 d2 : String)
    (env : Env) (fuel : Nat) (hnl : args.no_loc = true)
    (t : Int × Nat × Nat × List String)
    (hrun : (mainRun args token d1 d2 env fuel).map
        (fun r => (r.total_commits, r.total_added, r.total_removed, r.analyzed)) = .ok t) :
    t = (0, 0, 0, []) ∧
    (∀ g' lc', mainRun args token d1 d2 { env with git := g', listCommits := lc' } fuel
        = mainRun args token d1 d2 env fuel) := by
  constructor
  · unfold mainRun at hrun
    cases hg : get_basic_stats token env fuel with
    | error e => rw [hg] at hrun; simp [Except.map] at hrun
    | ok v =>
      obtain ⟨tr, pu, pr, fo, st, urls⟩ := v
      rw [hg] at hrun
      dsimp only at hrun
      rw [hnl] at hrun
      simp only [Bool.not_true, Bool.false_and, if_false] at hrun
      unfold analyzeFold at hrun
      simp [Except.map] at hrun
      exact hrun.symm
  · intro g' lc'
    unfold mainRun
    have hsame : get_basic_stats token { env with git := g', listCommits := lc' } fuel
        = get_basic_stats token env fuel := rfl
    rw [hsame]
    cases hg : get_basic_stats token env fuel with
    | error e => rfl
    | ok v =>
      obtain ⟨tr, pu, pr, fo, st, urls⟩ := v
      dsimp only
      rw [hnl]
      simp only [Bool.not_true, Bool.false_and, if_false]
      rfl

/-- C9 witness: a `--no-loc` run against the healthy environment reports all
zeros and analyzes nothing. -/
theorem c9_witness :
    (mainRun c9Args none "d1" "d2" okEnv 3).map
        (fun r => (r.total_commits, r.total_added, r.total_removed, r.analyzed))
      = .ok ((0 : Int), (0 : Nat), (0 : Nat), ([] : List String)) ∧
    ((0 : Int), (0 : Nat), (0 : Nat), ([] : List String))
      = ((0 : Int), (0 : Nat), (0 : Nat), ([] : List String)) :=
  ⟨rfl, (c9_no_loc_zero_totals c9Args none "d1" "d2" okEnv 3 rfl
      ((0 : Int), (0 : Nat), (0 : Nat), ([] : List String)) rfl).1⟩

/-- For a positive cap, `to_process` keeps at most that many URLs. -/
lemma to_process_length_le (N : Int) (hN : 0 < N) (urls : List String) :
    ((to_process (some N) urls).length : Int) ≤ N := by
  unfold to_process pySliceUpTo
  have hne : N ≠ 0 := by omega
  simp only [hne, if_true, hN.le, if_pos, ne_eq, not_false_eq_true]
  have hle : (urls.take N.toNat).length ≤ N.toNat := by
    simp [List.length_take]
  omega

/-- C2 (amended part): for every positive `--max-repos N`, any completed run
submits at most `N` repositories to the analyzer. -/
theorem c2_max_repos_caps (args : Args) (token : Option String) (d1 d2 : String)
    (env : Env) (fuel : Nat) (N : Int) (hN : 0 < N) (hmax : args.max_repos = some N)
    (k : Nat)
    (hrun : (mainRun args token d1 d2 env fuel).map (fun r => r.analyzed.length)
      = .ok k) :
    (k : Int) ≤ N := by
  unfold mainRun at hrun
  cases hg : get_basic_stats token env fuel with
  | error e => rw [hg] at hrun; simp [Except.map] at hrun
  | ok v =>
    obtain ⟨tr, pu, pr, fo, st, urls⟩ := v
    rw [hg] at hrun
    dsimp only at hrun
    set A := if !args.no_loc && !urls.isEmpty then to_process args.max_repos urls else []
      with hAdef
    cases hf : analyzeFold args token env ((0 : Int), (0 : Nat), (0 : Nat)) A with
    | error e => rw [hf] at hrun; simp [Except.map] at hrun
    | ok totals =>
      rw [hf] at hrun
      simp only [Except.map, Except.ok.injEq] at hrun
      by_cases hc : (!args.no_loc && !urls.isEmpty) = true
      · rw [hAdef, if_pos hc, hmax] at hrun
        rw [← hrun]
        exact to_process_length_le N hN urls
      · rw [hAdef, if_neg hc] at hrun
        rw [← hrun]
        simp
        omega



/-- C2 witness: a `--max-repos 1` run against the healthy environment
analyzes exactly one repository, within the cap. -/
theorem c2_witness :
    (mainRun c2wArgs none "d1" "d2" okEnv 5).map (fun r => r.analyzed.length)
      = .ok 1 ∧ ((1 : Nat) : Int) ≤ 1 :=
  ⟨rfl, c2_max_repos_caps c2wArgs none "d1" "d2" okEnv 5 1 (by decide) rfl 1 rfl⟩

/-- C2 (counterexample): with `--max-repos 0` the cap is ignored — `0` is
falsy — so the run analyzes 1 repository although the claim demands at most
0. -/
theorem c2_counterexample :
    (mainRun c2zArgs none "d1" "d2" okEnv 5).map (fun r => r.analyzed.length)
      = .ok 1 ∧ ¬((1 : Int) ≤ 0) :=
  ⟨rfl, by decide⟩

/-- On SSH-benign URLs the parser cannot raise. -/
lemma parse_safe (u : String) (h : sshSafe u) :
    ∃ p, parse_owner_repo_from_clone_url u = .ok p := by
  unfold parse_owner_repo_from_clone_url
  cases hsw : pyStartsWith "git@" (stripGitSuffix u)
  · simp [hsw]
  · have hs := h hsw
    rcases ho : splitFirstColon (stripGitSuffix u) with _ | ⟨a, b⟩
    · rw [ho] at hs; simp at hs
    · simp [hsw, ho]

/-- On SSH-benign URLs `analyze_repo` cannot raise: everything after the
parse is caught or pure. -/
lemma analyze_ok (u username : String) (full_clone : Bool) (depth : Nat)
    (git : String → GitOut) (lc : Request → Except PyErr CommitsResp)
    (token : Option String) (h : sshSafe u) :
    ∃ v, analyze_repo u username full_clone depth git lc token = .ok v := by
  obtain ⟨⟨o, r⟩, hp⟩ := parse_safe u h
  unfold analyze_repo
  rw [hp]
  exact ⟨_, rfl⟩

/-- The aggregation loop succeeds whenever every submitted URL is
SSH-benign. -/
lemma analyzeFold_ok (args : Args) (token : Option String) (env : Env) :
    ∀ (l : List String) (acc : Int × Nat × Nat), (∀ u ∈ l, sshSafe u) →
      ∃ v, analyzeFold args token env acc l = .ok v := by
  intro l
  induction l with
  | nil => intro acc _; exact ⟨acc, rfl⟩
  | cons u rest ih =>
    intro acc h
    obtain ⟨⟨c, a, r⟩, hu⟩ :=
      analyze_ok u GITHUB_USERNAME args.full_clone 50 env.git env.listCommits token
        (h u (by simp))
    unfold analyzeFold
    rw [hu]
    exact ih _ (fun x hx => h x (by simp [hx]))

/-- Every URL submitted for analysis comes from the fetched list. -/
lemma to_process_subset (m : Option Int) (urls : List String) :
    ∀ u, u ∈ to_process m urls → u ∈ urls := by
  intro u h
  unfold to_process pySliceUpTo at h
  rcases m with _ | n
  · exact h
  · dsimp only at h
    by_cases hn : n ≠ 0
    · rw [if_pos hn] at h
      by_cases hp : 0 ≤ n
      · rw [if_pos hp] at h; exact List.take_subset _ _ h
      · rw [if_neg hp] at h; exact List.take_subset _ _ h
    · rw [if_neg hn] at h; exact h

/-- When every listing request returns a response, the pagination loop
succeeds and every returned record came from the accumulator or from one of
the oracle's responses. -/
lemma getAllReposLoop_ok_mem (token : Option String)
    (lr : Request → Except PyErr ListResp) (h : ∀ req, ∃ r, lr req = .ok r) :
    ∀ (fuel page : Nat) (acc : List Repo),
      ∃ repos, getAllReposLoop token lr page acc fuel = .ok repos ∧
        ∀ x ∈ repos, x ∈ acc ∨ ∃ req resp, lr req = .ok resp ∧ x ∈ resp.body := by
  intro fuel
  induction fuel with
  | zero => intro page acc; exact ⟨acc, rfl, fun x hx => Or.inl hx⟩
  | succ f ih =>
    intro page acc
    obtain ⟨r, hr⟩ := h (reposRequest token page)
    unfold getAllReposLoop
    rw [hr]
    dsimp only
    by_cases h1 : r.status ≠ 200
    · rw [if_pos h1]; exact ⟨acc, rfl, fun x hx => Or.inl hx⟩
    · rw [if_neg h1]
      by_cases h2 : r.body.isEmpty = true
      · rw [if_pos h2]; exact ⟨acc, rfl, fun x hx => Or.inl hx⟩
      · rw [if_neg h2]
        by_cases h3 : r.body.length < 100
        · rw [if_pos h3]
          refine ⟨acc ++ r.body, rfl, fun x hx => ?_⟩
          rcases List.mem_append.mp hx with hx | hx
          · exact Or.inl hx
          · exact Or.inr ⟨_, r, hr, hx⟩
        · rw [if_neg h3]
          obtain ⟨repos, hrep, hmem⟩ := ih (page + 1) (acc ++ r.body)
          refine ⟨repos, hrep, fun x hx => ?_⟩
          rcases hmem x hx with hx' | hx'
          · rcases List.mem_append.mp hx' with h4 | h4
            · exact Or.inl h4
            · exact Or.inr ⟨_, r, hr, h4⟩
          · exact hx'.elim (fun req hreq => Or.inr ⟨req, hreq⟩)

/-- When every profile and listing request returns a response, the stats
stage succeeds, and every clone URL it reports was the `clone_url` field of
a record in some listing response. -/
lemma get_basic_stats_ok (token : Option String) (env : Env) (fuel : Nat)
    (hu : ∀ req, ∃ u, env.getUser req = .ok u)
    (hl : ∀ req, ∃ l, env.listRepos req = .ok l) :
    ∃ tr pu pr fo st urls,
      get_basic_stats token env fuel = .ok (tr, pu, pr, fo, st, urls) ∧
      ∀ u ∈ urls, ∃ req resp repo, env.listRepos req = .ok resp ∧
        repo ∈ resp.body ∧ repo.clone_url = some u := by
  obtain ⟨u0, hu0⟩ := hu (userRequest token)
  obtain ⟨repos, hrep, hmem⟩ := getAllReposLoop_ok_mem token env.listRepos hl fuel 1 []
  unfold get_basic_stats get_all_repos
  rw [hu0]
  dsimp only
  rw [hrep]
  dsimp only
  refine ⟨_, _, _, _, _, _, rfl, ?_⟩
  intro u hu'
  obtain ⟨repo, hrepo, hcl⟩ := List.mem_filterMap.mp hu'
  rcases hc : repo.clone_url with _ | s
  · rw [hc] at hcl; simp at hcl
  · rw [hc] at hcl
    dsimp only at hcl
    by_cases hs : s = ""
    · rw [if_pos hs] at hcl; simp at hcl
    · rw [if_neg hs] at hcl
      have hsu : s = u := by simpa using hcl
      subst hsu
      rcases hmem repo hrepo with h0 | ⟨req, resp, hreq, hin⟩
      · simp at h0
      · exact ⟨req, resp, repo, hreq, hin, hc⟩

/-- C1 (amended part): whenever every repository-listing and profile request
returns a response (of any status) rather than raising, and every clone URL
in the listing responses is SSH-benign, the run completes and writes the
README (exit code 0) — all other failures (GraphQL, commit API, every
subprocess) degrade to zeros. -/
theorem c1_run_always_completes (args : Args) (token : Option String) (d1 d2 : String)
    (env : Env) (fuel : Nat)
    (hu : ∀ req, ∃ u, env.getUser req = .ok u)
    (hl : ∀ req, ∃ l, env.listRepos req = .ok l)
    (hurls : ∀ req resp, env.listRepos req = .ok resp → ∀ repo ∈ resp.body,
      ∀ u, repo.clone_url = some u → sshSafe u) :
    ∃ res, mainRun args token d1 d2 env fuel = .ok res := by
  obtain ⟨tr, pu, pr, fo, st, urls, hstats, hprov⟩ := get_basic_stats_ok token env fuel hu hl
  have hurlsafe : ∀ u ∈ urls, sshSafe u := by
    intro u hu'
    obtain ⟨req, resp, repo, hreq, hin, hcl⟩ := hprov u hu'
    exact hurls req resp hreq repo hin u hcl
  unfold mainRun
  rw [hstats]
  dsimp only
  have hsafe : ∀ u ∈ (if !args.no_loc && !urls.isEmpty
      then to_process args.max_repos urls else []), sshSafe u := by
    intro u hu'
    by_cases hc : (!args.no_loc && !urls.isEmpty) = true
    · rw [if_pos hc] at hu'
      exact hurlsafe u (to_process_subset args.max_repos urls u hu')
    · rw [if_neg hc] at hu'
      simp at hu'
  obtain ⟨v, hv⟩ := analyzeFold_ok args token env _ ((0 : Int), (0 : Nat), (0 : Nat)) hsafe
  rw [hv]
  exact ⟨_, rfl⟩

/-- C1 (counterexample): when the first HTTP request raises a network error,
the run aborts with that exception and no README is written — network errors
in the lister/profile stage are not caught. -/
theorem c1_counterexample :
    mainRun defaultArgs none "d1" "d2" errEnv 1 = .error .netErr := rfl

/-- C1 witness: against the healthy environment the run completes. -/
theorem c1_witness :
    ∃ res, mainRun defaultArgs none "2026-10-12" "2025-10-12" okEnv 5 = .ok res :=
  c1_run_always_completes defaultArgs none "2026-10-12" "2025-10-12" okEnv 5
    (fun _ => ⟨_, rfl⟩) (fun _ => ⟨_, rfl⟩)
    (by
      intro req resp hreq repo hrepo u hcl
      have h1 : ({ status := 200, body := [okRepo] } : ListResp) = resp :=
        Except.ok.inj hreq
      rw [← h1] at hrepo
      have h2 : repo = okRepo := by simpa using hrepo
      subst h2
      have h3 : u = "https://github.com/o/r.git" := by
        have := hcl
        simp [okRepo] at this
        exact this.symm
      subst h3
      decide)
